import Mathlib

/-!
Verification development for the pipeline-monitor health-check engine
(src/pipeline-monitor/internal/infrastructure/monitor/monitor.go and the
domain/service package). The Go code is shallowly embedded: each Go
function that a claim touches becomes a Lean definition over explicit
inputs standing for what the Go runtime supplies (request-construction
results, transport results, context state, channel contents), and the
claims become theorems about those definitions.
-/

namespace PipelineMonitor

/-- Status enumeration from internal/domain/service (Status constants:
healthy, unhealthy, unknown, timeout). -/
inductive Status
  | healthy
  | unhealthy
  | unknown
  | timeout
deriving DecidableEq, Repr

/-- A monitored service as seen by the monitor: identity and URL
(internal/domain/service Service struct; the monitor reads only ID and URL). -/
structure Service where
  id : String
  url : String
deriving DecidableEq, Repr

/-- Result of http.NewRequestWithContext in performHealthCheck: either a
well-formed request or a construction error with its message. -/
inductive ReqResult
  | ok
  | mkErr (msg : String)
deriving DecidableEq, Repr

/-- Result of m.client.Do(req): either a completed response carrying its
status code, or a transport error with its message. -/
inductive DoResult
  | resp (statusCode : Int)
  | doErr (msg : String)
deriving DecidableEq, Repr

/-- The value of ctx.Err() on the probe context at the moment
performHealthCheck inspects it: nil, context.DeadlineExceeded (the
per-probe 8s deadline elapsed), or context.Canceled (parent cancellation). -/
inductive CtxErr
  | nil
  | deadlineExceeded
  | canceled
deriving DecidableEq, Repr

/-- What performHealthCheck returns, plus an observation flag recording
whether the outbound network request was issued at all (client.Do is only
reached after request construction succeeds). -/
structure ProbeResult where
  status : Status
  errDetail : Option String
  didRequest : Bool
deriving DecidableEq, Repr

/-- Embedding of performHealthCheck (monitor.go lines 175-197).
Construction failure returns StatusUnknown with a wrapped error and no
network request. A transport error is classified StatusTimeout when
ctx.Err() == context.DeadlineExceeded, StatusUnhealthy otherwise. A
completed response is StatusHealthy iff 200 <= code < 400, else
StatusUnhealthy with an error naming the code. -/
def performHealthCheck (req : ReqResult) (doRes : DoResult) (ctxErr : CtxErr) :
    ProbeResult :=
  match req with
  | ReqResult.mkErr m =>
      { status := Status.unknown
        errDetail := some ("failed to create request: " ++ m)
        didRequest := false }
  | ReqResult.ok =>
      match doRes with
      | DoResult.doErr m =>
          if ctxErr = CtxErr.deadlineExceeded then
            { status := Status.timeout
              errDetail := some ("request timeout: " ++ m)
              didRequest := true }
          else
            { status := Status.unhealthy
              errDetail := some ("request failed: " ++ m)
              didRequest := true }
      | DoResult.resp code =>
          if 200 ≤ code ∧ code < 400 then
            { status := Status.healthy
              errDetail := none
              didRequest := true }
          else
            { status := Status.unhealthy
              errDetail := some ("unhealthy status code: " ++ toString code)
              didRequest := true }

/-- C1: for a probe whose request is constructed successfully and which
completes with a response of status `code`, the classification is Healthy
iff 200 ≤ code < 400, and Unhealthy for every code outside that range. -/
theorem healthy_iff_status_in_range (code : Int) (ctxErr : CtxErr) :
    ((performHealthCheck ReqResult.ok (DoResult.resp code) ctxErr).status
        = Status.healthy ↔ 200 ≤ code ∧ code < 400)
    ∧ (¬(200 ≤ code ∧ code < 400) →
        (performHealthCheck ReqResult.ok (DoResult.resp code) ctxErr).status
          = Status.unhealthy) := by
  constructor
  · constructor
    · intro h
      by_contra hc
      simp [performHealthCheck, hc] at h
    · intro h
      simp [performHealthCheck, h]
  · intro h
    simp [performHealthCheck, h]

/-- Witness for C1: code 200 is Healthy, and code 500 (outside the range)
is Unhealthy. -/
theorem healthy_iff_status_in_range_witness :
    ((performHealthCheck ReqResult.ok (DoResult.resp 200) CtxErr.nil).status
        = Status.healthy ∧ 200 ≤ (200 : Int) ∧ (200 : Int) < 400)
    ∧ (performHealthCheck ReqResult.ok (DoResult.resp 500) CtxErr.nil).status
        = Status.unhealthy := by
  refine ⟨⟨(healthy_iff_status_in_range 200 CtxErr.nil).1.2 (by decide), by decide⟩, ?_⟩
  exact (healthy_iff_status_in_range 500 CtxErr.nil).2 (by decide)

/-- C2: the result is Timeout iff the request was constructed, client.Do
failed, and the probe context reports DeadlineExceeded; classification of
a transport error depends only on the deadline signal, never on the error
message; and a transport failure without deadline expiry is Unhealthy. -/
theorem timeout_iff_deadline (req : ReqResult) (doRes : DoResult) (ctxErr : CtxErr) :
    ((performHealthCheck req doRes ctxErr).status = Status.timeout ↔
      req = ReqResult.ok ∧ (∃ m, doRes = DoResult.doErr m) ∧
        ctxErr = CtxErr.deadlineExceeded)
    ∧ (∀ m₁ m₂,
        (performHealthCheck req (DoResult.doErr m₁) ctxErr).status =
        (performHealthCheck req (DoResult.doErr m₂) ctxErr).status)
    ∧ (∀ m, ctxErr ≠ CtxErr.deadlineExceeded →
        (performHealthCheck ReqResult.ok (DoResult.doErr m) ctxErr).status
          = Status.unhealthy) := by
  refine ⟨?_, ?_, ?_⟩
  · constructor
    · intro h
      cases req with
      | mkErr m => simp [performHealthCheck] at h
      | ok =>
        cases doRes with
        | resp code =>
          by_cases hc : 200 ≤ code ∧ code < 400 <;>
            simp [performHealthCheck, hc] at h
        | doErr m =>
          by_cases hd : ctxErr = CtxErr.deadlineExceeded
          · exact ⟨rfl, ⟨m, rfl⟩, hd⟩
          · simp [performHealthCheck, hd] at h
    · rintro ⟨rfl, ⟨m, rfl⟩, rfl⟩
      simp [performHealthCheck]
  · intro m₁ m₂
    cases req with
    | mkErr m => simp [performHealthCheck]
    | ok =>
      by_cases hd : ctxErr = CtxErr.deadlineExceeded <;>
        simp [performHealthCheck, hd]
  · intro m hd
    simp [performHealthCheck, hd]

/-- Witness for C2: a concrete transport error with DeadlineExceeded is
Timeout, and the same error with a nil context error is Unhealthy. -/
theorem timeout_iff_deadline_witness :
    (performHealthCheck ReqResult.ok (DoResult.doErr "dial tcp: i/o timeout")
        CtxErr.deadlineExceeded).status = Status.timeout
    ∧ (performHealthCheck ReqResult.ok (DoResult.doErr "conn refused")
        CtxErr.nil).status = Status.unhealthy := by
  constructor
  · exact (timeout_iff_deadline ReqResult.ok
      (DoResult.doErr "dial tcp: i/o timeout") CtxErr.deadlineExceeded).1.2
      ⟨rfl, ⟨"dial tcp: i/o timeout", rfl⟩, rfl⟩
  · exact (timeout_iff_deadline ReqResult.ok (DoResult.doErr "conn refused")
      CtxErr.nil).2.2 "conn refused" (by decide)

/-- A ServiceUpdate as placed on the updates channel (monitor.go lines 28-34);
the Error field is modelled by its message. -/
structure ServiceUpdate where
  serviceID : String
  status : Status
  responseTime : Int
  errDetail : Option String
deriving DecidableEq, Repr

/-- Capacity of the buffered updates channel (monitor.go line 43). -/
def channelCapacity : Nat := 100

/-- How checkService's publication select statement resolved
(monitor.go lines 158-171): the update was sent; the ctx.Done case fired and
checkService returned (silently discarding the update); or the default case
fired because the channel was full (discard with a log line). -/
inductive PublishOutcome
  | sent
  | ctxAbort
  | droppedFull
deriving DecidableEq, Repr

/-- Go select semantics for the publication step. The send case is ready iff
the buffer has space; the ctx.Done case is ready iff the root context is
cancelled; the default case fires only when neither is ready. When both send
and ctx.Done are ready the runtime picks nondeterministically, modelled by
`pick` (true selects ctx.Done). The step never blocks: it is a total
function of the channel state. -/
def publishUpdate (ctxDone pick : Bool) (queue : List ServiceUpdate)
    (u : ServiceUpdate) : List ServiceUpdate × PublishOutcome :=
  if queue.length < channelCapacity then
    if ctxDone ∧ pick then (queue, PublishOutcome.ctxAbort)
    else (queue ++ [u], PublishOutcome.sent)
  else
    if ctxDone then (queue, PublishOutcome.ctxAbort)
    else (queue, PublishOutcome.droppedFull)

/-- Registering a cancel handle in m.activeChecks (map assignment: the key
ends up present exactly once). -/
def registryAdd (reg : List String) (id : String) : List String :=
  id :: reg.filter (fun k => k ≠ id)

/-- Deleting a cancel handle from m.activeChecks. -/
def registryRemove (reg : List String) (id : String) : List String :=
  reg.filter (fun k => k ≠ id)

/-- The state checkService touches: the Cancellation Registry
(m.activeChecks keys) and the buffered updates channel contents. -/
structure CheckState where
  registry : List String
  queue : List ServiceUpdate
deriving DecidableEq, Repr

/-- Embedding of checkService (monitor.go lines 134-172): register the probe's
cancel handle under the service ID, run performHealthCheck, attempt
non-blocking publication of the resulting update, and (deferred cleanup,
lines 147-151, which runs on every return path) remove the handle. -/
def checkService (ctxDone pick : Bool) (svc : Service) (req : ReqResult)
    (doRes : DoResult) (ctxErr : CtxErr) (respTime : Int) (s : CheckState) :
    CheckState × PublishOutcome :=
  let reg1 := registryAdd s.registry svc.id
  let pr := performHealthCheck req doRes ctxErr
  let u : ServiceUpdate :=
    { serviceID := svc.id, status := pr.status, responseTime := respTime
      errDetail := pr.errDetail }
  let qo := publishUpdate ctxDone pick s.queue u
  ({ registry := registryRemove reg1 svc.id, queue := qo.1 }, qo.2)

/-- C5: publication never blocks the Prober (publishUpdate is total and
returns the unchanged queue when full); when the channel is at capacity the
update is discarded — logged via the default case whenever the root context
is not cancelled — and in every case, including the drop, checkService
removes the service's handle from the Cancellation Registry before
returning. -/
theorem drop_when_full_still_deregisters (ctxDone pick : Bool) (svc : Service)
    (req : ReqResult) (doRes : DoResult) (ctxErr : CtxErr) (respTime : Int)
    (s : CheckState) :
    (svc.id ∉ (checkService ctxDone pick svc req doRes ctxErr respTime s).1.registry)
    ∧ (channelCapacity ≤ s.queue.length →
        (checkService ctxDone pick svc req doRes ctxErr respTime s).1.queue = s.queue
        ∧ (checkService ctxDone pick svc req doRes ctxErr respTime s).2
            ≠ PublishOutcome.sent)
    ∧ (channelCapacity ≤ s.queue.length → ctxDone = false →
        (checkService ctxDone pick svc req doRes ctxErr respTime s).2
          = PublishOutcome.droppedFull) := by
  refine ⟨?_, ?_, ?_⟩
  · intro hmem
    simp only [checkService, registryRemove, registryAdd] at hmem
    rcases List.mem_filter.mp hmem with ⟨_, hne⟩
    simp at hne
  · intro hfull
    have hnot : ¬ s.queue.length < channelCapacity := not_lt.mpr hfull
    constructor
    · simp only [checkService, publishUpdate, if_neg hnot]
      by_cases hd : ctxDone = true <;> simp [hd]
    · simp only [checkService, publishUpdate, if_neg hnot]
      by_cases hd : ctxDone = true <;> simp [hd]
  · intro hfull hd
    have hnot : ¬ s.queue.length < channelCapacity := not_lt.mpr hfull
    simp [checkService, publishUpdate, if_neg hnot, hd]

/-- Witness for C5: with a concrete full channel (100 buffered updates) and
the root context alive, the update for service s1 is dropped via the logged
default case, the queue is unchanged, and s1 is deregistered. -/
theorem drop_when_full_still_deregisters_witness :
    ("s1" ∉ (checkService false false ⟨"s1", "http://a"⟩ ReqResult.ok
        (DoResult.resp 200) CtxErr.nil 5
        ⟨["s1"], List.replicate 100 ⟨"x", Status.healthy, 1, none⟩⟩).1.registry)
    ∧ (checkService false false ⟨"s1", "http://a"⟩ ReqResult.ok
        (DoResult.resp 200) CtxErr.nil 5
        ⟨["s1"], List.replicate 100 ⟨"x", Status.healthy, 1, none⟩⟩).1.queue
        = List.replicate 100 ⟨"x", Status.healthy, 1, none⟩
    ∧ (checkService false false ⟨"s1", "http://a"⟩ ReqResult.ok
        (DoResult.resp 200) CtxErr.nil 5
        ⟨["s1"], List.replicate 100 ⟨"x", Status.healthy, 1, none⟩⟩).2
        = PublishOutcome.droppedFull := by
  have hfull : channelCapacity ≤
      (List.replicate 100 (⟨"x", Status.healthy, 1, none⟩ : ServiceUpdate)).length := by
    simp [channelCapacity]
  have h := drop_when_full_still_deregisters false false ⟨"s1", "http://a"⟩
    ReqResult.ok (DoResult.resp 200) CtxErr.nil 5
    ⟨["s1"], List.replicate 100 ⟨"x", Status.healthy, 1, none⟩⟩
  exact ⟨h.1, (h.2.1 hfull).1, h.2.2 hfull rfl⟩

/-- C9: a probe whose request cannot be constructed yields StatusUnknown with
an ErrorDetail and no network request is issued; the failure surfaces only as
the per-target update published on the channel (checkService appends an
Unknown update for that service when the channel has room), never as an
error escalated out of checkService. -/
theorem construction_failure_unknown (m : String) (doRes : DoResult)
    (ctxErr : CtxErr) (svc : Service) (respTime : Int) (s : CheckState) :
    (performHealthCheck (ReqResult.mkErr m) doRes ctxErr).status = Status.unknown
    ∧ (performHealthCheck (ReqResult.mkErr m) doRes ctxErr).errDetail.isSome
    ∧ (performHealthCheck (ReqResult.mkErr m) doRes ctxErr).didRequest = false
    ∧ (s.queue.length < channelCapacity →
        (checkService false false svc (ReqResult.mkErr m) doRes ctxErr respTime s).1.queue
          = s.queue ++
            [{ serviceID := svc.id, status := Status.unknown, responseTime := respTime
               errDetail := some ("failed to create request: " ++ m) }]) := by
  refine ⟨rfl, by simp [performHealthCheck], rfl, ?_⟩
  intro hroom
  simp [checkService, publishUpdate, if_pos hroom, performHealthCheck]

/-- Witness for C9: a concrete malformed-URL construction failure on an empty
channel publishes exactly one Unknown update for that service. -/
theorem construction_failure_unknown_witness :
    (performHealthCheck (ReqResult.mkErr "missing protocol scheme")
        (DoResult.resp 200) CtxErr.nil).status = Status.unknown
    ∧ (checkService false false ⟨"s2", "://bad"⟩
        (ReqResult.mkErr "missing protocol scheme") (DoResult.resp 200)
        CtxErr.nil 0 ⟨[], []⟩).1.queue
        = [{ serviceID := "s2", status := Status.unknown, responseTime := 0
             errDetail := some "failed to create request: missing protocol scheme" }] := by
  have h := construction_failure_unknown "missing protocol scheme"
    (DoResult.resp 200) CtxErr.nil ⟨"s2", "://bad"⟩ 0 ⟨[], []⟩
  refine ⟨h.1, ?_⟩
  have hq := h.2.2.2 (by simp [channelCapacity])
  simpa using hq

/-- Observable actions of handleUpdate, in order: the repo.UpdateStatus call,
the persistence-failure log line, the normal status log line, and a
forwarding of the update to a Broadcaster (the spec's name for a post-persist
fan-out step; included so its absence from the code is statable). -/
inductive AggEffect
  | persistCall (id : String) (st : Status) (rt : Int)
  | logPersistFailure (id : String)
  | logUpdate (id : String) (st : Status)
  | broadcast (u : ServiceUpdate)
deriving DecidableEq, Repr

/-- Embedding of handleUpdate (monitor.go lines 218-232): call
repo.UpdateStatus; if it returns an error, log the failure and return
immediately; otherwise log the update. `persistErr` is the result of the
UpdateStatus call (some msg = error). No other effect occurs on either
path. -/
def handleUpdate (persistErr : Option String) (u : ServiceUpdate) :
    List AggEffect :=
  match persistErr with
  | some _ =>
      [AggEffect.persistCall u.serviceID u.status u.responseTime,
       AggEffect.logPersistFailure u.serviceID]
  | none =>
      [AggEffect.persistCall u.serviceID u.status u.responseTime,
       AggEffect.logUpdate u.serviceID u.status]

/-- Counterexample for C3: on a concrete update whose persistence write
fails, handleUpdate performs only the persist attempt and the failure log —
it does not forward anything to a Broadcaster (no broadcast effect occurs on
any update), contradicting the claim that forwarding proceeds
unconditionally. -/
theorem no_broadcast_on_persist_failure :
    handleUpdate (some "db error") ⟨"s1", Status.healthy, 5, none⟩
      = [AggEffect.persistCall "s1" Status.healthy 5,
         AggEffect.logPersistFailure "s1"]
    ∧ AggEffect.broadcast ⟨"s1", Status.healthy, 5, none⟩
        ∉ handleUpdate (some "db error") ⟨"s1", Status.healthy, 5, none⟩ := by
  constructor
  · rfl
  · decide

/-- C3 (amended): for every consumed update the Aggregator issues the
persistence call first and exactly once; on persistence failure it logs the
failure and returns with no further action (no retry, no requeue); on
success it logs the update; and on no path does it forward the update to a
Broadcaster — subscriber delivery happens only by competing reads on the
updates channel itself, bypassing the Aggregator. -/
theorem handleUpdate_persists_then_stops (persistErr : Option String)
    (u : ServiceUpdate) :
    (handleUpdate persistErr u).head?
        = some (AggEffect.persistCall u.serviceID u.status u.responseTime)
    ∧ ((handleUpdate persistErr u).count
        (AggEffect.persistCall u.serviceID u.status u.responseTime) = 1)
    ∧ (persistErr.isSome →
        handleUpdate persistErr u
          = [AggEffect.persistCall u.serviceID u.status u.responseTime,
             AggEffect.logPersistFailure u.serviceID])
    ∧ (persistErr = none →
        handleUpdate persistErr u
          = [AggEffect.persistCall u.serviceID u.status u.responseTime,
             AggEffect.logUpdate u.serviceID u.status])
    ∧ (∀ v, AggEffect.broadcast v ∉ handleUpdate persistErr u) := by
  cases persistErr with
  | some m =>
      refine ⟨rfl, ?_, fun _ => rfl, ?_, ?_⟩
      · simp [handleUpdate, List.count_cons]
      · intro h
        exact absurd h (by simp)
      · intro v hv
        simp [handleUpdate] at hv
  | none =>
      refine ⟨rfl, ?_, ?_, fun _ => rfl, ?_⟩
      · simp [handleUpdate, List.count_cons]
      · intro h
        exact absurd h (by simp)
      · intro v hv
        simp [handleUpdate] at hv

/-- Witness for C3 (amended): both branches evaluated on concrete updates. -/
theorem handleUpdate_persists_then_stops_witness :
    handleUpdate (some "db down") ⟨"a", Status.timeout, 9, some "t"⟩
      = [AggEffect.persistCall "a" Status.timeout 9,
         AggEffect.logPersistFailure "a"]
    ∧ handleUpdate none ⟨"b", Status.healthy, 3, none⟩
      = [AggEffect.persistCall "b" Status.healthy 3,
         AggEffect.logUpdate "b" Status.healthy] := by
  exact ⟨(handleUpdate_persists_then_stops (some "db down")
      ⟨"a", Status.timeout, 9, some "t"⟩).2.2.1 rfl,
    (handleUpdate_persists_then_stops none
      ⟨"b", Status.healthy, 3, none⟩).2.2.2.1 rfl⟩

/-- The aggregator loop's observable state: whether the root context is
cancelled, the buffered contents of the updates channel, and whether the
channel has been closed. -/
structure AggState where
  ctxDone : Bool
  queue : List ServiceUpdate
  closed : Bool
deriving DecidableEq, Repr

/-- One resolution of processUpdates' select (monitor.go lines 203-214).
`some s'` means the loop consumed a buffered update and continues in state
s'; `none` means the loop returned. A receive that yields a value is ready
whenever the buffer is nonempty (even after close, Go delivers buffered
values first); a receive yields ok=false — and the loop returns — when the
channel is closed and drained; the ctx.Done case is ready whenever the root
context is cancelled. -/
inductive AggStep : AggState → Option AggState → Prop
  | recv (u : ServiceUpdate) (rest : List ServiceUpdate) (d c : Bool) :
      AggStep ⟨d, u :: rest, c⟩ (some ⟨d, rest, c⟩)
  | closedExit (d : Bool) : AggStep ⟨d, [], true⟩ none
  | ctxExit (q : List ServiceUpdate) (c : Bool) : AggStep ⟨true, q, c⟩ none

/-- Counterexample for C7: with the root context cancelled, the channel still
open and one update still buffered, processUpdates can return — so the
Aggregator does not terminate only on a closed-and-drained channel. (This is
exactly the Stop() path: the context is cancelled before the channel is
closed, see monitor.go lines 71 and 84.) -/
theorem agg_exits_with_open_channel :
    AggStep ⟨true, [⟨"s1", Status.healthy, 5, none⟩], false⟩ none
    ∧ (AggState.mk true [⟨"s1", Status.healthy, 5, none⟩] false).closed = false
    ∧ (AggState.mk true [⟨"s1", Status.healthy, 5, none⟩] false).queue ≠ [] := by
  exact ⟨AggStep.ctxExit _ _, rfl, by decide⟩

/-- C7 (amended): the aggregator loop terminates only when the channel is
closed and drained, or when the root context has been cancelled; while the
context is alive it never exits with the channel open or holding undelivered
updates. In this code Stop() cancels the context before closing the channel
and closes it only after the loop has exited, so the cancellation exit is
the one actually taken at shutdown, and buffered updates may be left
unconsumed. -/
theorem agg_exit_conditions (s : AggState) (h : AggStep s none) :
    (s.closed = true ∧ s.queue = []) ∨ s.ctxDone = true := by
  cases h with
  | closedExit d => exact Or.inl ⟨rfl, rfl⟩
  | ctxExit q c => exact Or.inr rfl

/-- Witness for C7 (amended): the closed-and-drained exit satisfies the
disjunction. -/
theorem agg_exit_conditions_witness :
    ((AggState.mk false [] true).closed = true
        ∧ (AggState.mk false [] true).queue = [])
    ∨ (AggState.mk false [] true).ctxDone = true :=
  agg_exit_conditions ⟨false, [], true⟩ (AggStep.closedExit false)

/-- The two code sites that receive from the updates channel: processUpdates
(monitor.go line 205) and ServiceUpdatesSSE (handlers.go line 441), which
obtains the very same channel through GetUpdates (monitor.go lines 91-93)
and selects on it concurrently with the aggregator. -/
inductive ChanConsumer
  | aggregator
  | sseHandler
deriving DecidableEq, Repr

/-- One successful receive on the buffered updates channel: whichever of the
two consumers the runtime schedules dequeues the front element, and the
receive removes that element from the buffer. -/
inductive RecvStep :
    List ServiceUpdate → ChanConsumer → ServiceUpdate → List ServiceUpdate → Prop
  | recv (u : ServiceUpdate) (rest : List ServiceUpdate) (c : ChanConsumer) :
      RecvStep (u :: rest) c u rest

/-- Counterexample for C4: a buffered update can be received by the SSE
handler rather than the Aggregator — ServiceUpdatesSSE reads the same
channel returned by GetUpdates — so the channel does not have the Aggregator
as its only consumer. -/
theorem sse_consumes_update :
    RecvStep [⟨"s1", Status.healthy, 5, none⟩] ChanConsumer.sseHandler
      ⟨"s1", Status.healthy, 5, none⟩ []
    ∧ ChanConsumer.sseHandler ≠ ChanConsumer.aggregator := by
  exact ⟨RecvStep.recv _ _ _, by decide⟩

/-- C4 (amended): every receive consumes the front element exactly once —
the element is removed from the buffer, so no outcome is delivered twice —
but the consumer is whichever of the Aggregator (processUpdates) and a
connected SSE handler (ServiceUpdatesSSE, via GetUpdates) wins the race, so
an outcome may bypass the Aggregator entirely. -/
theorem recv_consumes_front_once (q : List ServiceUpdate) (c : ChanConsumer)
    (u : ServiceUpdate) (q' : List ServiceUpdate) (h : RecvStep q c u q') :
    q = u :: q' ∧ q.count u = q'.count u + 1
    ∧ (c = ChanConsumer.aggregator ∨ c = ChanConsumer.sseHandler) := by
  cases h with
  | recv u rest c =>
      refine ⟨rfl, by simp [List.count_cons], ?_⟩
      cases c
      · exact Or.inl rfl
      · exact Or.inr rfl

/-- Witness for C4 (amended): a concrete receive by the aggregator removes
the single buffered update. -/
theorem recv_consumes_front_once_witness :
    ([(⟨"s1", Status.healthy, 5, none⟩ : ServiceUpdate)]
        = (⟨"s1", Status.healthy, 5, none⟩ : ServiceUpdate) :: [])
    ∧ ([(⟨"s1", Status.healthy, 5, none⟩ : ServiceUpdate)]).count
        (⟨"s1", Status.healthy, 5, none⟩ : ServiceUpdate)
        = ([] : List ServiceUpdate).count
            (⟨"s1", Status.healthy, 5, none⟩ : ServiceUpdate) + 1
    ∧ (ChanConsumer.aggregator = ChanConsumer.aggregator
        ∨ ChanConsumer.aggregator = ChanConsumer.sseHandler) :=
  recv_consumes_front_once _ ChanConsumer.aggregator _ _
    (RecvStep.recv ⟨"s1", Status.healthy, 5, none⟩ [] ChanConsumer.aggregator)

/-- Events observed by monitorLoop's select: a ticker tick (together with the
result the repository's GetAll returns at that tick) or the root context's
cancellation. -/
inductive LoopEvent
  | tick (res : Except String (List Service))
  | ctxDone
deriving Repr

/-- True exactly on the cancellation event. -/
def isCtxDone : LoopEvent → Bool
  | LoopEvent.ctxDone => true
  | LoopEvent.tick _ => false

/-- Embedding of checkAllServices (monitor.go lines 117-131): fetch the
snapshot; on error, log and return without launching anything (the sweep is
skipped); otherwise launch one checkService goroutine per service. The
returned list is the list of probes launched, one entry per target. -/
def checkAllServices (res : Except String (List Service)) : List Service :=
  match res with
  | Except.error _ => []
  | Except.ok svcs => svcs

/-- The sweeps performed by monitorLoop's for-select loop (monitor.go lines
105-113): each tick triggers checkAllServices; observing ctx.Done returns
and ends the loop, so no later event produces a sweep. -/
def monitorTicks : List LoopEvent → List (List Service)
  | [] => []
  | LoopEvent.tick res :: rest => checkAllServices res :: monitorTicks rest
  | LoopEvent.ctxDone :: _ => []

/-- Embedding of monitorLoop (monitor.go lines 96-114): one immediate sweep
(line 103) and then one sweep per tick until cancellation. Each inner list
holds the probes launched by one sweep. -/
def monitorLoop (initRes : Except String (List Service))
    (evs : List LoopEvent) : List (List Service) :=
  checkAllServices initRes :: monitorTicks evs

/-- C8: monitorLoop sweeps once immediately; each tick before cancellation
yields exactly one further sweep (one sweep per interval until Stop); a
sweep whose listing succeeds launches exactly one probe per returned target;
a sweep whose listing fails launches none, and the loop continues to the
next tick (a failed tick is followed by the sweeps of the remaining events,
so the failure is retried and never terminates the Scheduler). -/
theorem monitorLoop_sweeps (initRes : Except String (List Service))
    (evs rest : List LoopEvent) (svcs : List Service) (e : String) :
    (monitorLoop initRes evs).head? = some (checkAllServices initRes)
    ∧ (monitorLoop initRes evs).length
        = 1 + (evs.takeWhile (fun ev => !(isCtxDone ev))).length
    ∧ (checkAllServices (Except.ok svcs)).length = svcs.length
    ∧ checkAllServices (Except.error e) = []
    ∧ monitorTicks (LoopEvent.tick (Except.error e) :: rest)
        = [] :: monitorTicks rest
    ∧ monitorTicks (LoopEvent.ctxDone :: rest) = [] := by
  refine ⟨rfl, ?_, rfl, rfl, rfl, rfl⟩
  simp only [monitorLoop, List.length_cons]
  have : ∀ l : List LoopEvent,
      (monitorTicks l).length = (l.takeWhile (fun ev => !(isCtxDone ev))).length := by
    intro l
    induction l with
    | nil => rfl
    | cons hd tl ih =>
        cases hd with
        | tick res => simp [monitorTicks, List.takeWhile, isCtxDone, ih]
        | ctxDone => simp [monitorTicks, List.takeWhile, isCtxDone]
  rw [this]
  omega

/-- Labels for the lifecycle transition system's steps. -/
inductive SysAct
  | sweepA (n : Nat)
  | probeDoneA
  | loopExitA
  | aggExitA
  | stopCancelA
  | stopWaitA
  | stopCloseA
deriving DecidableEq, Repr

/-- Progress of Stop() (monitor.go lines 67-88) through its straight-line
body: not yet called; context cancelled and registered handles invoked
(lines 71-78); wg.Wait() returned (line 81); channel closed and Stop
returned (line 84). -/
inductive StopPhase
  | idle
  | cancelled
  | waited
  | returned
deriving DecidableEq, Repr

/-- Lifecycle state of the monitor: root-context flag, liveness of the
monitorLoop and processUpdates goroutines, number of in-flight checkService
goroutines, the WaitGroup counter, whether the updates channel is closed,
and Stop()'s phase. -/
structure SysState where
  ctxDone : Bool
  loopRunning : Bool
  aggRunning : Bool
  probes : Nat
  wg : Nat
  closed : Bool
  phase : StopPhase
deriving DecidableEq, Repr

/-- State right after Start() (monitor.go lines 52-64): wg.Add(1) before
each of the two long-lived goroutines, both running, nothing in flight. -/
def startState : SysState :=
  { ctxDone := false, loopRunning := true, aggRunning := true, probes := 0
    wg := 2, closed := false, phase := StopPhase.idle }

/-- Interleaving semantics of the monitor's lifecycle, one constructor per
code event. sweep: checkAllServices does wg.Add(1) before each spawned
checkService (lines 127-130) — the ticker case may still win a race with
ctx.Done, so it is enabled as long as monitorLoop runs. probeDone: a
checkService goroutine returns, its deferred wg.Done firing (line 135).
loopExit / aggExit: monitorLoop and processUpdates observe ctx.Done and
return, their deferred wg.Done firing (lines 97, 109-111, 201, 211-212).
stopCancel: Stop cancels the root context and invokes the registered
handles (lines 71-78). stopWait: wg.Wait() returns, which requires the
counter to be zero (line 81). stopClose: Stop closes the channel and
returns (line 84). -/
inductive SysStep : SysState → SysAct → SysState → Prop
  | sweep (n : Nat) (s : SysState) :
      s.loopRunning = true →
      SysStep s (SysAct.sweepA n)
        { s with probes := s.probes + n, wg := s.wg + n }
  | probeDone (s : SysState) :
      0 < s.probes →
      SysStep s SysAct.probeDoneA
        { s with probes := s.probes - 1, wg := s.wg - 1 }
  | loopExit (s : SysState) :
      s.ctxDone = true → s.loopRunning = true →
      SysStep s SysAct.loopExitA { s with loopRunning := false, wg := s.wg - 1 }
  | aggExit (s : SysState) :
      s.ctxDone = true → s.aggRunning = true →
      SysStep s SysAct.aggExitA { s with aggRunning := false, wg := s.wg - 1 }
  | stopCancel (s : SysState) :
      s.phase = StopPhase.idle →
      SysStep s SysAct.stopCancelA
        { s with ctxDone := true, phase := StopPhase.cancelled }
  | stopWait (s : SysState) :
      s.phase = StopPhase.cancelled → s.wg = 0 →
      SysStep s SysAct.stopWaitA { s with phase := StopPhase.waited }
  | stopClose (s : SysState) :
      s.phase = StopPhase.waited →
      SysStep s SysAct.stopCloseA
        { s with closed := true, phase := StopPhase.returned }

/-- States reachable from the post-Start state. -/
inductive SysReachable : SysState → Prop
  | init : SysReachable startState
  | step (s s' : SysState) (a : SysAct) :
      SysReachable s → SysStep s a s' → SysReachable s'

/-- The WaitGroup counter always equals the number of live tracked tasks,
and once Stop has passed wg.Wait nothing is live; the channel is closed only
in the returned phase; cancellation happens no later than phase cancelled. -/
def sysInv (s : SysState) : Prop :=
  s.wg = (if s.loopRunning then 1 else 0) + (if s.aggRunning then 1 else 0) + s.probes
  ∧ ((s.phase = StopPhase.waited ∨ s.phase = StopPhase.returned) →
      s.loopRunning = false ∧ s.aggRunning = false ∧ s.probes = 0)
  ∧ (s.closed = true → s.phase = StopPhase.returned)
  ∧ (s.phase ≠ StopPhase.idle → s.ctxDone = true)

theorem sysInv_reachable (s : SysState) (h : SysReachable s) : sysInv s := by
  induction h with
  | init =>
      refine ⟨rfl, ?_, ?_, ?_⟩ <;> intro h <;> simp [startState] at h
  | step s s' a hr hstep ih =>
      obtain ⟨hwg, hdone, hclosed, hcancel⟩ := ih
      cases hstep with
      | sweep n s hlr =>
          refine ⟨?_, ?_, hclosed, hcancel⟩
          · cases hl : s.loopRunning <;> cases ha : s.aggRunning <;>
              simp [hl, ha] at hwg ⊢ <;> omega
          · intro hph
            exact absurd (hdone hph).1 (by simp [hlr])
      | probeDone s hp =>
          refine ⟨?_, ?_, hclosed, hcancel⟩
          · cases hl : s.loopRunning <;> cases ha : s.aggRunning <;>
              simp [hl, ha] at hwg ⊢ <;> omega
          · intro hph
            exact absurd (hdone hph).2.2 (by omega)
      | loopExit s hc hlr =>
          refine ⟨?_, ?_, hclosed, hcancel⟩
          · cases ha : s.aggRunning <;> simp [hlr, ha] at hwg ⊢ <;> omega
          · intro hph
            exact absurd (hdone hph).1 (by simp [hlr])
      | aggExit s hc har =>
          refine ⟨?_, ?_, hclosed, hcancel⟩
          · cases hl : s.loopRunning <;> simp [hl, har] at hwg ⊢ <;> omega
          · intro hph
            exact absurd (hdone hph).2.1 (by simp [har])
      | stopCancel s hph =>
          refine ⟨hwg, ?_, ?_, fun _ => rfl⟩
          · intro hph'
            rcases hph' with h | h <;> simp at h
          · intro hcl
            have hret := hclosed hcl
            rw [hph] at hret
            exact absurd hret (by decide)
      | stopWait s hph hw =>
          have h0 : s.loopRunning = false ∧ s.aggRunning = false ∧ s.probes = 0 := by
            rw [hw] at hwg
            cases hl : s.loopRunning <;> cases ha : s.aggRunning <;>
              simp [hl, ha] at hwg ⊢ <;> omega
          refine ⟨hwg, fun _ => h0, ?_, ?_⟩
          · intro hcl
            have hret := hclosed hcl
            rw [hph] at hret
            exact absurd hret (by decide)
          · intro _
            exact hcancel (by rw [hph]; decide)
      | stopClose s hph =>
          have h0 := hdone (Or.inl hph)
          refine ⟨hwg, fun _ => h0, fun _ => rfl, ?_⟩
          intro _
          exact hcancel (by rw [hph]; decide)

/-- The observable actions of Stop() in source order: cancel the root
context, invoke one registered cancellation handle (per registry entry),
return from wg.Wait, close the updates channel. -/
inductive StopEvent
  | cancelRoot
  | cancelHandle (id : String)
  | waitAll
  | closeChannel
deriving DecidableEq, Repr

/-- Embedding of Stop's straight-line body (monitor.go lines 67-88): cancel
the root context (line 71), walk m.activeChecks invoking every registered
handle (lines 74-78), wg.Wait (line 81), close(m.updates) (line 84). -/
def StopTrace (handles : List String) : List StopEvent :=
  StopEvent.cancelRoot ::
    (handles.map StopEvent.cancelHandle
      ++ [StopEvent.waitAll, StopEvent.closeChannel])

/-- C6: Stop first cancels the root context, then invokes every currently
registered cancellation handle — all strictly before wg.Wait, with the
channel close strictly after wg.Wait, as the last action. Moreover, in the
lifecycle semantics, whenever the channel is closed the Scheduler loop, the
Aggregator and every in-flight probe have already finished (wg reached zero
before Stop advanced past wg.Wait), and once Stop has returned no sweep
step can occur. -/
theorem stop_orders_shutdown (handles : List String) (s s' : SysState) (n : Nat) :
    (StopTrace handles).head? = some StopEvent.cancelRoot
    ∧ (∃ pre, StopTrace handles
        = pre ++ [StopEvent.waitAll, StopEvent.closeChannel]
        ∧ StopEvent.cancelRoot ∈ pre
        ∧ ∀ h, h ∈ handles → StopEvent.cancelHandle h ∈ pre)
    ∧ (SysReachable s → s.closed = true →
        s.loopRunning = false ∧ s.aggRunning = false ∧ s.probes = 0)
    ∧ (SysReachable s → s.phase = StopPhase.returned →
        ¬ SysStep s (SysAct.sweepA n) s') := by
  refine ⟨rfl, ?_, ?_, ?_⟩
  · refine ⟨StopEvent.cancelRoot :: handles.map StopEvent.cancelHandle, rfl,
      List.mem_cons_self _ _, ?_⟩
    intro h hmem
    exact List.mem_cons_of_mem _ (List.mem_map_of_mem _ hmem)
  · intro hr hcl
    have hinv := sysInv_reachable s hr
    exact hinv.2.1 (Or.inr (hinv.2.2.1 hcl))
  · intro hr hph hstep
    have hinv := sysInv_reachable s hr
    have hnot := (hinv.2.1 (Or.inr hph)).1
    cases hstep with
    | sweep m s hlr => exact absurd hlr (by simp [hnot])

/-- The state at the end of the shutdown sequence used as the C6 witness:
context cancelled, both long-lived goroutines exited, no probes, WaitGroup
at zero, channel closed, Stop returned. -/
def stoppedState : SysState :=
  { ctxDone := true, loopRunning := false, aggRunning := false, probes := 0
    wg := 0, closed := true, phase := StopPhase.returned }

/-- Witness for C6: on the one-handle registry the trace starts with the
root cancellation and ends with the close after the wait; the concrete
shutdown-complete state is reachable, nothing is running in it, and no
sweep step applies to it. -/
theorem stop_orders_shutdown_witness :
    (StopTrace ["svc1"]).head? = some StopEvent.cancelRoot
    ∧ (stoppedState.loopRunning = false ∧ stoppedState.aggRunning = false
        ∧ stoppedState.probes = 0)
    ∧ ¬ SysStep stoppedState (SysAct.sweepA 3)
        { stoppedState with probes := 3, wg := 3 } := by
  have r1 : SysReachable startState := SysReachable.init
  have r2 := SysReachable.step _ _ _ r1 (SysStep.stopCancel _ rfl)
  have r3 := SysReachable.step _ _ _ r2 (SysStep.loopExit _ rfl rfl)
  have r4 := SysReachable.step _ _ _ r3 (SysStep.aggExit _ rfl rfl)
  have r5 := SysReachable.step _ _ _ r4 (SysStep.stopWait _ rfl rfl)
  have r6 := SysReachable.step _ _ _ r5 (SysStep.stopClose _ rfl)
  have hreach : SysReachable stoppedState := r6
  have h := stop_orders_shutdown ["svc1"] stoppedState
    { stoppedState with probes := 3, wg := 3 } 3
  exact ⟨h.1, h.2.2.1 hreach rfl, h.2.2.2 hreach rfl⟩

/-- Start's externally visible result (monitor.go lines 52-64): the
post-spawn state (both long-lived tasks registered and running) together
with the returned error, which is the literal nil on the only return path
(line 63). -/
def StartReturn : SysState × Option String := (startState, none)

/-- Stop's externally visible result (monitor.go lines 67-88): the shutdown
action trace together with the returned error, which is the literal nil on
the only return path (line 87). -/
def StopReturn (handles : List String) : List StopEvent × Option String :=
  (StopTrace handles, none)

/-- C10: Start unconditionally returns nil after spawning the Scheduler
loop and the Aggregator, and Stop unconditionally returns nil after its
shutdown sequence — neither lifecycle operation can report failure. -/
theorem start_stop_never_fail :
    StartReturn.2 = none
    ∧ StartReturn.1.loopRunning = true
    ∧ StartReturn.1.aggRunning = true
    ∧ ∀ handles, (StopReturn handles).2 = none
        ∧ (StopReturn handles).1 = StopTrace handles := by
  exact ⟨rfl, rfl, rfl, fun _ => ⟨rfl, rfl⟩⟩

end PipelineMonitor
